import Mathlib

/-!
Shallow embedding of the corystack-bundle stealth-scraping runtime, together
with theorems settling the frozen specification claims.

Modelled components (each definition is translated from the named source):
* `RateLimiter` — src/src/core/rate-limiter.ts
* `SessionManager` — src/src/core/session-manager.ts
* `ProxyManager` — src/unnamed/part_007 (proxy-manager module)
* `FingerprintGenerator` — src/src/core/fingerprint.ts with tables from
  src/src/config/default.ts, plus the TLS profile table of src/unnamed/part_005
* `StealthScraper.testSecurity` / `stressTest` — src/src/core/stealth-scraper.ts

Conventions: wall-clock timestamps (`Date.now()` milliseconds) are integers
(`ℤ`); JavaScript floating-point quantities that enter arithmetic (backoff
delays, proxy scores, latencies) are rationals (`ℚ`); JavaScript `Set` and
`Map` (which iterate in insertion order) are insertion-ordered lists.
-/

namespace RateLimiter

/-- `RateLimitConfig`, rate-limiter.ts lines 6–13.  The window limits and the
concurrency cap are counts; the backoff multiplier and cap are JS numbers. -/
structure RateLimitConfig where
  maxRequestsPerSecond : ℕ
  maxRequestsPerMinute : ℕ
  maxRequestsPerHour : ℕ
  maxConcurrent : ℕ
  backoffMultiplier : ℚ
  backoffMax : ℚ
  deriving Repr, DecidableEq

/-- Mutable state of a `RateLimiter` (rate-limiter.ts lines 22–25):
`requests` holds the admitted request timestamps, `concurrent` the held slot
identifiers (a JS `Set`, i.e. insertion-ordered and duplicate-free). -/
structure RLState where
  requests : List ℤ
  concurrent : List String
  backoffTime : ℚ
  lastBackoff : ℤ
  deriving Repr, DecidableEq

/-- The zero state a fresh `RateLimiter` starts from. -/
def RLState.initial : RLState :=
  { requests := [], concurrent := [], backoffTime := 0, lastBackoff := 0 }

/-- Number of requests inside the sliding window of width `w` ending at `now`:
`this.requests.filter(r => now - r.timestamp < w).length` (lines 142–144). -/
def countWindow (requests : List ℤ) (now w : ℤ) : ℕ :=
  (requests.filter (fun r => now - r < w)).length

/-- `cleanOldRequests` (lines 165–170): drop requests older than one hour. -/
def cleanOldRequests (now : ℤ) (requests : List ℤ) : List ℤ :=
  requests.filter (fun r => r > now - 3600000)

/-- `isInBackoff` (lines 118–123). -/
def isInBackoff (s : RLState) (now : ℤ) : Bool :=
  if s.backoffTime = 0 then false
  else decide (((now - s.lastBackoff : ℤ) : ℚ) < s.backoffTime)

/-- `checkLimits` (lines 138–160): returns `(canProceed, waitTime)`. -/
def checkLimits (cfg : RateLimitConfig) (requests : List ℤ) (now : ℤ) :
    Bool × ℤ :=
  if cfg.maxRequestsPerSecond ≤ countWindow requests now 1000 then (false, 1000)
  else if cfg.maxRequestsPerMinute ≤ countWindow requests now 60000 then (false, 5000)
  else if cfg.maxRequestsPerHour ≤ countWindow requests now 3600000 then (false, 60000)
  else (true, 0)

/-- JS `Set.add`: append unless already present. -/
def setAdd (l : List String) (x : String) : List String :=
  if x ∈ l then l else l ++ [x]

/-- One iteration of the `waitForSlot` loop body (lines 44–74) evaluated at
instant `now` with slot identifier `rid` (the source computes
`rid = url + "-" + Date.now()` once at entry, line 42).  There is no `await`
between the clean-up, the checks and the admission, so the whole iteration is
atomic in the JS event loop.  Returns the new state and whether the call
returned (admitted a request); `false` means the loop sleeps and retries. -/
def waitForSlotAttempt (cfg : RateLimitConfig) (s : RLState) (now : ℤ)
    (rid : String) : RLState × Bool :=
  let s := { s with requests := cleanOldRequests now s.requests }
  if isInBackoff s now then (s, false)
  else if cfg.maxConcurrent ≤ s.concurrent.length then (s, false)
  else if (checkLimits cfg s.requests now).1 then
    ({ s with requests := s.requests ++ [now], concurrent := setAdd s.concurrent rid },
     true)
  else (s, false)

/-- Character-list comparison underlying `jsStartsWith`. -/
def charsStartWith : List Char → List Char → Bool
  | _, [] => true
  | [], _ :: _ => false
  | c :: s, d :: p => c == d && charsStartWith s p

/-- JS `String.prototype.startsWith`, modelled on the character sequence. -/
def jsStartsWith (s pre : String) : Bool :=
  charsStartWith s.data pre.data

/-- `releaseSlot` (lines 80–88): delete the first held slot identifier that
starts with `url`, if any. -/
def releaseSlot (s : RLState) (url : String) : RLState :=
  match s.concurrent.find? (fun id => jsStartsWith id url) with
  | some rid => { s with concurrent := s.concurrent.erase rid }
  | none => s

/-- `triggerBackoff` (lines 93–105). -/
def triggerBackoff (cfg : RateLimitConfig) (s : RLState) (now : ℤ) : RLState :=
  if s.backoffTime = 0 then
    { s with backoffTime := 1000, lastBackoff := now }
  else
    { s with backoffTime := min (s.backoffTime * cfg.backoffMultiplier) cfg.backoffMax,
             lastBackoff := now }

/-- `resetBackoff` (lines 110–113). -/
def resetBackoff (s : RLState) : RLState :=
  { s with backoffTime := 0, lastBackoff := 0 }

end RateLimiter

section RateLimiterFacts

open RateLimiter

theorem countWindow_append_now (requests : List ℤ) (now w : ℤ) (hw : 0 < w) :
    countWindow (requests ++ [now]) now w = countWindow requests now w + 1 := by
  simp [countWindow, List.filter_append, sub_self, hw]

theorem countWindow_mono_clean (requests : List ℤ) (now w : ℤ) :
    countWindow (cleanOldRequests now requests) now w ≤ countWindow requests now w := by
  simp only [countWindow, cleanOldRequests]
  exact List.Sublist.length_le ((List.filter_sublist _).filter _)

theorem setAdd_length_le (l : List String) (x : String) :
    (setAdd l x).length ≤ l.length + 1 := by
  by_cases h : x ∈ l <;> simp [setAdd, h]

/-- C1: `waitForSlot` admits a request only when, after pruning, the one-second
window count is below `maxRequestsPerSecond`, the one-minute window count below
`maxRequestsPerMinute`, the one-hour window count below `maxRequestsPerHour`,
the held-slot count below `maxConcurrent`, and no backoff window is active; it
then appends the request timestamp and adds the slot identifier (raising the
held-slot count by one when the identifier is fresh), so every window count
and the held-slot count stay at or below their limits. -/
theorem waitForSlot_admits_only_within_limits
    (cfg : RateLimitConfig) (s : RLState) (now : ℤ) (rid : String)
    (h : (waitForSlotAttempt cfg s now rid).2 = true) :
    isInBackoff s now = false ∧
    s.concurrent.length < cfg.maxConcurrent ∧
    countWindow (cleanOldRequests now s.requests) now 1000 < cfg.maxRequestsPerSecond ∧
    countWindow (cleanOldRequests now s.requests) now 60000 < cfg.maxRequestsPerMinute ∧
    countWindow (cleanOldRequests now s.requests) now 3600000 < cfg.maxRequestsPerHour ∧
    (waitForSlotAttempt cfg s now rid).1.requests = cleanOldRequests now s.requests ++ [now] ∧
    countWindow (waitForSlotAttempt cfg s now rid).1.requests now 1000 ≤ cfg.maxRequestsPerSecond ∧
    countWindow (waitForSlotAttempt cfg s now rid).1.requests now 60000 ≤ cfg.maxRequestsPerMinute ∧
    countWindow (waitForSlotAttempt cfg s now rid).1.requests now 3600000 ≤ cfg.maxRequestsPerHour ∧
    (waitForSlotAttempt cfg s now rid).1.concurrent.length ≤ cfg.maxConcurrent ∧
    (rid ∉ s.concurrent →
      (waitForSlotAttempt cfg s now rid).1.concurrent.length = s.concurrent.length + 1) := by
  have hback : isInBackoff { s with requests := cleanOldRequests now s.requests } now
      = isInBackoff s now := rfl
  by_cases h1 : isInBackoff s now
  · simp [waitForSlotAttempt, hback, h1] at h
  · by_cases h2 : cfg.maxConcurrent ≤ s.concurrent.length
    · simp [waitForSlotAttempt, hback, h1, h2] at h
    · by_cases h3 : (checkLimits cfg (cleanOldRequests now s.requests) now).1 = true
      · have hlim : countWindow (cleanOldRequests now s.requests) now 1000
              < cfg.maxRequestsPerSecond ∧
            countWindow (cleanOldRequests now s.requests) now 60000
              < cfg.maxRequestsPerMinute ∧
            countWindow (cleanOldRequests now s.requests) now 3600000
              < cfg.maxRequestsPerHour := by
          have h3' := h3
          simp only [checkLimits] at h3'
          split_ifs at h3' with ha hb hc
          exact ⟨Nat.lt_of_not_le ha, Nat.lt_of_not_le hb, Nat.lt_of_not_le hc⟩
        obtain ⟨hsec, hmin, hhour⟩ := hlim
        have hres : (waitForSlotAttempt cfg s now rid).1
            = { s with requests := cleanOldRequests now s.requests ++ [now],
                       concurrent := setAdd s.concurrent rid } := by
          simp [waitForSlotAttempt, hback, h1, h2, h3]
        refine ⟨by simpa using h1, Nat.lt_of_not_le h2, hsec, hmin, hhour, ?_, ?_, ?_, ?_, ?_, ?_⟩
        · rw [hres]
        · rw [hres]
          simpa [countWindow_append_now _ now 1000 (by norm_num)] using hsec
        · rw [hres]
          simpa [countWindow_append_now _ now 60000 (by norm_num)] using hmin
        · rw [hres]
          simpa [countWindow_append_now _ now 3600000 (by norm_num)] using hhour
        · rw [hres]
          calc (setAdd s.concurrent rid).length ≤ s.concurrent.length + 1 :=
                setAdd_length_le _ _
            _ ≤ cfg.maxConcurrent := Nat.lt_of_not_le h2
        · intro hfresh
          rw [hres]
          simp [setAdd, hfresh]
      · simp [waitForSlotAttempt, hback, h1, h2, h3] at h

/-- Witness for C1 at the default configuration, empty state and time 0. -/
theorem waitForSlot_admits_only_within_limits_witness :
    (waitForSlotAttempt ⟨2, 60, 1000, 5, 2, 60000⟩ RLState.initial 0 "https://example.com-0").2
        = true ∧
    (waitForSlotAttempt ⟨2, 60, 1000, 5, 2, 60000⟩ RLState.initial 0
        "https://example.com-0").1.concurrent.length ≤ 5 :=
  ⟨by decide,
   (waitForSlot_admits_only_within_limits ⟨2, 60, 1000, 5, 2, 60000⟩ RLState.initial 0
      "https://example.com-0" (by decide)).2.2.2.2.2.2.2.2.2.1⟩

/-- C2 counterexample: with `backoffMax = 500` (any truthy value below 1000 is
accepted by the constructor) the very first `triggerBackoff` sets the delay to
the hard-coded 1000 ms, which both exceeds `backoffMax` and differs from the
claimed update `min(max(delay·multiplier, 1000), backoffMax) = 500`. -/
theorem triggerBackoff_exceeds_max_counterexample :
    (triggerBackoff ⟨2, 60, 1000, 5, 2, 500⟩ RLState.initial 0).backoffTime = 1000 ∧
    ¬ ((triggerBackoff ⟨2, 60, 1000, 5, 2, 500⟩ RLState.initial 0).backoffTime ≤
        (500 : ℚ)) ∧
    (triggerBackoff ⟨2, 60, 1000, 5, 2, 500⟩ RLState.initial 0).backoffTime ≠
      min (max (RLState.initial.backoffTime * 2) 1000) 500 := by
  have hval : (triggerBackoff ⟨2, 60, 1000, 5, 2, 500⟩ RLState.initial 0).backoffTime
      = 1000 := rfl
  have hrhs : min (max (RLState.initial.backoffTime * 2) 1000) (500 : ℚ) = 500 := by
    have h0 : RLState.initial.backoffTime = 0 := rfl
    rw [h0, show ((0 : ℚ) * 2) = 0 from by ring,
      max_eq_right (by norm_num : (0 : ℚ) ≤ 1000),
      min_eq_right (by norm_num : (500 : ℚ) ≤ 1000)]
  exact ⟨hval, by rw [hval]; norm_num, by rw [hval, hrhs]; norm_num⟩

/-- C2 (amended): provided `backoffMultiplier > 1` and `backoffMax ≥ 1000`
(the defaults are 2 and 60000), and the current delay is 0 or at least the
initial 1000 ms, `triggerBackoff` performs the update
`delay ← min(max(delay·multiplier, 1000), backoffMax)`; each trigger strictly
increases the delay while it is below `backoffMax`, the delay never exceeds
`backoffMax`, and after a trigger at time `now` no `waitForSlot` iteration
admits a request at any instant `m` with `m - now < delay`. -/
theorem triggerBackoff_escalation (cfg : RateLimitConfig) (s : RLState) (now : ℤ)
    (hm : 1 < cfg.backoffMultiplier) (hmax : 1000 ≤ cfg.backoffMax)
    (hd : s.backoffTime = 0 ∨ 1000 ≤ s.backoffTime) :
    (triggerBackoff cfg s now).backoffTime
        = min (max (s.backoffTime * cfg.backoffMultiplier) 1000) cfg.backoffMax ∧
    (s.backoffTime < cfg.backoffMax →
      s.backoffTime < (triggerBackoff cfg s now).backoffTime) ∧
    (triggerBackoff cfg s now).backoffTime ≤ cfg.backoffMax ∧
    1000 ≤ (triggerBackoff cfg s now).backoffTime ∧
    (triggerBackoff cfg s now).lastBackoff = now ∧
    (∀ m : ℤ, ((m - now : ℤ) : ℚ) < (triggerBackoff cfg s now).backoffTime →
      ∀ rid, (waitForSlotAttempt cfg (triggerBackoff cfg s now) m rid).2 = false) := by
  have hblock : ∀ t : RLState, t.backoffTime ≠ 0 →
      ∀ m : ℤ, ((m - t.lastBackoff : ℤ) : ℚ) < t.backoffTime →
      ∀ rid, (waitForSlotAttempt cfg t m rid).2 = false := by
    intro t ht m hlt rid
    have hlt' : ((m : ℚ) - (t.lastBackoff : ℚ)) < t.backoffTime := by
      push_cast at hlt
      exact hlt
    have hb : isInBackoff { t with requests := cleanOldRequests m t.requests } m = true := by
      simp [isInBackoff, ht, hlt']
    simp [waitForSlotAttempt, hb]
  rcases hd with hz | hge
  · have htr : triggerBackoff cfg s now
        = { s with backoffTime := 1000, lastBackoff := now } := by
      simp [triggerBackoff, hz]
    have hfor : min (max (s.backoffTime * cfg.backoffMultiplier) 1000) cfg.backoffMax
        = 1000 := by
      rw [hz]
      simp [max_eq_right, hmax]
    refine ⟨by rw [htr, hfor], ?_, ?_, ?_, by rw [htr], ?_⟩
    · intro _; rw [htr, hz]; norm_num
    · rw [htr]; exact hmax
    · rw [htr]
    · intro m hlt rid
      exact hblock _ (by rw [htr]; norm_num) m (by rw [htr] at hlt ⊢; exact hlt) rid
  · have hz' : s.backoffTime ≠ 0 := by positivity
    have htr : triggerBackoff cfg s now
        = { s with backoffTime := min (s.backoffTime * cfg.backoffMultiplier) cfg.backoffMax,
                   lastBackoff := now } := by
      simp [triggerBackoff, hz']
    have hgrow : s.backoffTime < s.backoffTime * cfg.backoffMultiplier := by
      nlinarith
    have hmul : (1000 : ℚ) ≤ s.backoffTime * cfg.backoffMultiplier := le_of_lt
      (lt_of_le_of_lt hge hgrow)
    have hfor : min (max (s.backoffTime * cfg.backoffMultiplier) 1000) cfg.backoffMax
        = min (s.backoffTime * cfg.backoffMultiplier) cfg.backoffMax := by
      rw [max_eq_left hmul]
    refine ⟨by rw [htr, hfor], ?_, ?_, ?_, by rw [htr], ?_⟩
    · intro hltmax
      rw [htr]
      exact lt_min hgrow hltmax
    · rw [htr]; exact min_le_right _ _
    · rw [htr]
      exact le_min hmul hmax
    · intro m hlt rid
      refine hblock _ ?_ m (by rw [htr] at hlt ⊢; exact hlt) rid
      rw [htr]
      have : (1000 : ℚ) ≤ min (s.backoffTime * cfg.backoffMultiplier) cfg.backoffMax :=
        le_min hmul hmax
      positivity

/-- Witness for the amended C2 at the default configuration from a zero state. -/
theorem triggerBackoff_escalation_witness :
    ((1 : ℚ) < 2 ∧ (1000 : ℚ) ≤ 60000 ∧
      (RLState.initial.backoffTime = 0 ∨ 1000 ≤ RLState.initial.backoffTime)) ∧
    (1000 : ℚ) ≤ (triggerBackoff ⟨2, 60, 1000, 5, 2, 60000⟩ RLState.initial 7).backoffTime :=
  ⟨⟨by norm_num, by norm_num, Or.inl rfl⟩,
   (triggerBackoff_escalation ⟨2, 60, 1000, 5, 2, 60000⟩ RLState.initial 7
      (by norm_num) (by norm_num) (Or.inl rfl)).2.2.2.1⟩

/-- C10: `releaseSlot(url)` deletes exactly the first held slot identifier
that begins with `url` (decrementing the held-slot count by one) and leaves
the state unchanged when no identifier matches; all other fields are
untouched.  The final conjunct shows a release for `https://a.com` freeing a
slot that was acquired for the different url `https://a.com/page`. -/
theorem releaseSlot_first_match (s : RLState) (url : String) :
    (match s.concurrent.find? (fun id => jsStartsWith id url) with
      | some rid => (releaseSlot s url).concurrent = s.concurrent.erase rid ∧
          (releaseSlot s url).concurrent.length + 1 = s.concurrent.length
      | none => releaseSlot s url = s) ∧
    (releaseSlot s url).requests = s.requests ∧
    (releaseSlot s url).backoffTime = s.backoffTime ∧
    (releaseSlot s url).lastBackoff = s.lastBackoff ∧
    (releaseSlot { requests := [], concurrent := ["https://a.com/page-100"],
                   backoffTime := 0, lastBackoff := 0 } "https://a.com").concurrent = [] := by
  refine ⟨?_, ?_, ?_, ?_, by decide⟩
  · cases hfind : s.concurrent.find? (fun id => jsStartsWith id url) with
    | none => simp [releaseSlot, hfind]
    | some rid =>
        have hmem : rid ∈ s.concurrent := List.mem_of_find?_eq_some hfind
        refine ⟨by simp [releaseSlot, hfind], ?_⟩
        simp only [releaseSlot, hfind]
        exact List.length_erase_add_one hmem
  all_goals
    cases hfind : s.concurrent.find? (fun id => jsStartsWith id url) <;>
      simp [releaseSlot, hfind]

end RateLimiterFacts

namespace SessionManager

/-- The per-session record (session-manager.ts lines 88–100), restricted to
the fields the pool logic reads: the `Map` key `id`, the creation instant
`startTime`, and the list of currently open pages (`pages`); a session whose
worker still holds pages open is in use, one with no open pages is idle. -/
structure Session where
  id : String
  startTime : ℤ
  pages : List String
  deriving Repr, DecidableEq

/-- `closeSession` (lines 214–228) on the pool: `this.sessions.delete(id)`
removes the entry with that key. -/
def removeById (pool : List Session) (sid : String) : List Session :=
  pool.eraseP (fun t => t.id == sid)

/-- One step of the `cleanupOldestSession` scan (lines 245–249): keep the
candidate with the strictly smaller `startTime`. -/
def oldStep (acc : ℤ × Option Session) (s : Session) : ℤ × Option Session :=
  if s.startTime < acc.1 then (s.startTime, some s) else acc

/-- The scan of `cleanupOldestSession` (lines 241–250): starting from
`oldestTime = Date.now()` and no candidate, fold `oldStep` over the pool. -/
def oldestSession (now : ℤ) (pool : List Session) : ℤ × Option Session :=
  pool.foldl oldStep (now, none)

/-- `cleanupOldestSession` (lines 241–255): close the winning candidate of the scan, if any. -/
def cleanupOldestSession (now : ℤ) (pool : List Session) : List Session :=
  match (oldestSession now pool).2 with
  | some s => removeById pool s.id
  | none => pool

/-- `createSession` (lines 33–105) as it acts on the pool: when the pool is at
or above `maxSessions` the oldest session is cleaned up first, then the new
session (fresh id, `startTime = Date.now()`, no pages) is inserted. -/
def createSession (maxSessions : ℕ) (now : ℤ) (newId : String)
    (pool : List Session) : List Session :=
  let pool := if maxSessions ≤ pool.length then cleanupOldestSession now pool else pool
  pool ++ [{ id := newId, startTime := now, pages := [] }]

end SessionManager

section SessionManagerFacts

open SessionManager

theorem oldStep_fold_spec (l : List Session) :
    ∀ (a : ℤ) (o : Option Session), (∀ u, o = some u → u.startTime = a) →
    ((l.foldl oldStep (a, o)).2 = none →
        o = none ∧ (l.foldl oldStep (a, o)).1 = a ∧ ∀ s ∈ l, a ≤ s.startTime) ∧
    (∀ t, (l.foldl oldStep (a, o)).2 = some t →
        (l.foldl oldStep (a, o)).1 = t.startTime ∧ t.startTime ≤ a ∧
        (t ∈ l ∨ o = some t) ∧ (∀ s ∈ l, t.startTime ≤ s.startTime) ∧
        (o = none → t ∈ l ∧ t.startTime < a)) := by
  induction l with
  | nil =>
      intro a o ho
      refine ⟨fun hn => ⟨hn, rfl, by simp⟩, fun t ht => ?_⟩
      simp only [List.foldl_nil] at ht
      refine ⟨(ho t ht).symm, le_of_eq (ho t ht), Or.inr ht, by simp, fun hcontra => ?_⟩
      rw [hcontra] at ht
      exact absurd ht (by simp)
  | cons x xs ih =>
      intro a o ho
      by_cases hx : x.startTime < a
      · have hstep : oldStep (a, o) x = (x.startTime, some x) := by
          simp [oldStep, hx]
        have h := ih x.startTime (some x) (fun u hu => by cases hu; rfl)
        constructor
        · intro hn
          simp only [List.foldl_cons, hstep] at hn
          exact absurd (h.1 hn).1 (by simp)
        · intro t ht
          simp only [List.foldl_cons, hstep] at ht ⊢
          rcases h.2 t ht with ⟨heq, hle, hsrc, hmin, -⟩
          have hmem : t ∈ x :: xs := by
            rcases hsrc with hmem | hx'
            · exact List.mem_cons_of_mem _ hmem
            · cases hx'
              exact List.mem_cons_self _ _
          have hlta : t.startTime < a := lt_of_le_of_lt hle hx
          refine ⟨heq, le_of_lt hlta, Or.inl hmem, ?_, fun _ => ⟨hmem, hlta⟩⟩
          intro s hs
          rcases List.mem_cons.mp hs with rfl | hmem'
          · exact hle
          · exact hmin s hmem'
      · have hstep : oldStep (a, o) x = (a, o) := by
          simp [oldStep, hx]
        have h := ih a o ho
        constructor
        · intro hn
          simp only [List.foldl_cons, hstep] at hn
          rcases h.1 hn with ⟨ho', hfst, hall⟩
          refine ⟨ho', by simpa [hstep] using hfst, ?_⟩
          intro s hs
          rcases List.mem_cons.mp hs with rfl | hmem'
          · exact not_lt.mp hx
          · exact hall s hmem'
        · intro t ht
          simp only [List.foldl_cons, hstep] at ht ⊢
          rcases h.2 t ht with ⟨heq, hle, hsrc, hmin, hnone⟩
          refine ⟨heq, hle, ?_, ?_, ?_⟩
          · rcases hsrc with hmem | ho'
            · exact Or.inl (List.mem_cons_of_mem _ hmem)
            · exact Or.inr ho'
          · intro s hs
            rcases List.mem_cons.mp hs with rfl | hmem'
            · exact le_trans hle (not_lt.mp hx)
            · exact hmin s hmem'
          · intro hno
            rcases hnone hno with ⟨hmem, hlt⟩
            exact ⟨List.mem_cons_of_mem _ hmem, hlt⟩

theorem oldestSession_none (now : ℤ) (pool : List Session)
    (hn : (oldestSession now pool).2 = none) : ∀ s ∈ pool, now ≤ s.startTime :=
  ((oldStep_fold_spec pool now none (by simp)).1 hn).2.2

theorem oldestSession_some (now : ℤ) (pool : List Session) (t : Session)
    (ht : (oldestSession now pool).2 = some t) :
    t ∈ pool ∧ t.startTime < now ∧ ∀ s ∈ pool, t.startTime ≤ s.startTime := by
  rcases (oldStep_fold_spec pool now none (by simp)).2 t ht with ⟨-, -, -, hmin, hnone⟩
  rcases hnone rfl with ⟨hmem, hlt⟩
  exact ⟨hmem, hlt, hmin⟩

/-- C3 counterexample: with `maxSessions = 1` and the pool holding a single
session that is in use (it has an open page, so no idle session exists),
`createSession` does not block — it evicts that in-use session and installs
the new one.  This refutes both "evicts the idle session with the earliest
last use" and "if no idle session exists the lease blocks". -/
theorem createSession_evicts_in_use_counterexample :
    createSession 1 5 "b" [{ id := "a", startTime := 0, pages := ["p1"] }]
        = [{ id := "b", startTime := 5, pages := [] }] ∧
    ({ id := "a", startTime := 0, pages := ["p1"] } : Session).pages ≠ [] := by
  constructor
  · rfl
  · simp

/-- C3 (amended): the pool never exceeds `maxSessions` (for `maxSessions ≥ 1`
and sessions created strictly later than every existing session): below
capacity `createSession` just appends the new session, and at capacity it
first evicts the session with the earliest `startTime` — regardless of
whether that session is idle — and never blocks. -/
theorem createSession_bounded_evicts_earliest (maxS : ℕ) (hmax : 1 ≤ maxS) (now : ℤ)
    (newId : String) (pool : List Session)
    (hlt : ∀ s ∈ pool, s.startTime < now) (hlen : pool.length ≤ maxS) :
    (createSession maxS now newId pool).length ≤ maxS ∧
    (pool.length < maxS → createSession maxS now newId pool
        = pool ++ [{ id := newId, startTime := now, pages := [] }]) ∧
    (pool.length = maxS → ∃ t, (oldestSession now pool).2 = some t ∧ t ∈ pool ∧
        (∀ s ∈ pool, t.startTime ≤ s.startTime) ∧
        createSession maxS now newId pool
          = removeById pool t.id ++ [{ id := newId, startTime := now, pages := [] }]) := by
  rcases lt_or_eq_of_le hlen with hltlen | heq
  · have hcond : ¬ maxS ≤ pool.length := not_le.mpr hltlen
    have heqn : createSession maxS now newId pool
        = pool ++ [{ id := newId, startTime := now, pages := [] }] := by
      simp [createSession, hcond]
    refine ⟨?_, fun _ => heqn, fun habs => absurd habs (ne_of_lt hltlen)⟩
    rw [heqn]
    simp only [List.length_append, List.length_singleton]
    omega
  · have hpos : 0 < pool.length := by omega
    obtain ⟨x, hx⟩ := List.exists_mem_of_length_pos hpos
    have hsome : ∃ t, (oldestSession now pool).2 = some t := by
      cases hcase : (oldestSession now pool).2 with
      | none =>
          exact absurd (oldestSession_none now pool hcase x hx) (not_le.mpr (hlt x hx))
      | some t => exact ⟨t, rfl⟩
    obtain ⟨t, ht⟩ := hsome
    obtain ⟨hmem, -, hmin⟩ := oldestSession_some now pool t ht
    have hcond : maxS ≤ pool.length := le_of_eq heq.symm
    have hclean : cleanupOldestSession now pool = removeById pool t.id := by
      simp [cleanupOldestSession, ht]
    have hlen' : (removeById pool t.id).length + 1 = pool.length :=
      List.length_eraseP_add_one hmem (by simp)
    have hform : createSession maxS now newId pool
        = removeById pool t.id ++ [{ id := newId, startTime := now, pages := [] }] := by
      simp [createSession, hcond, hclean]
    refine ⟨?_, fun habs => absurd heq (ne_of_lt habs), fun _ => ⟨t, ht, hmem, hmin, hform⟩⟩
    rw [hform]
    simp only [List.length_append, List.length_singleton]
    omega

/-- Witness for the amended C3: a two-session pool at capacity 2. -/
theorem createSession_bounded_evicts_earliest_witness :
    ((1 : ℕ) ≤ 2 ∧
      (∀ s ∈ [({ id := "a", startTime := 3, pages := ["p"] } : Session),
              { id := "c", startTime := 1, pages := [] }], s.startTime < 9) ∧
      ([({ id := "a", startTime := 3, pages := ["p"] } : Session),
        { id := "c", startTime := 1, pages := [] }].length ≤ 2)) ∧
    (createSession 2 9 "d" [{ id := "a", startTime := 3, pages := ["p"] },
        { id := "c", startTime := 1, pages := [] }]).length ≤ 2 :=
  ⟨⟨by norm_num, by decide, by decide⟩,
   (createSession_bounded_evicts_earliest 2 (by norm_num) 9 "d"
      [{ id := "a", startTime := 3, pages := ["p"] },
       { id := "c", startTime := 1, pages := [] }] (by decide) (by decide)).1⟩

end SessionManagerFacts

namespace ProxyManager

/-- A pool entry (src/unnamed/part_007), restricted to the fields
`updateProxyStats` reads: the `host:port` key and the optional EMA score. -/
structure Proxy where
  host : String
  port : ℤ
  successRate : Option ℚ
  deriving Repr, DecidableEq

/-- JS `x || d` on an optional numeric field: `undefined` and `0` are falsy,
so a stored score of exactly 0 is replaced by the default as well. -/
def jsOrDefault (x : Option ℚ) (d : ℚ) : ℚ :=
  match x with
  | none => d
  | some r => if r = 0 then d else r

/-- The `p.host === q.host && p.port === q.port` test used by `findIndex`
(lines 587–589) and `removeProxy` (lines 578–580). -/
def sameEndpoint (p q : Proxy) : Bool :=
  p.host == q.host && p.port == q.port

/-- `removeProxy` (lines 577–581): drop every proxy with the same endpoint. -/
def removeProxy (pool : List Proxy) (q : Proxy) : List Proxy :=
  pool.filter (fun p => !(sameEndpoint p q))

/-- The exponential-moving-average step of `updateProxyStats` (lines 592–596):
`success ? rate*0.9 + 0.1 : rate*0.9`. -/
def emaUpdate (currentRate : ℚ) (success : Bool) : ℚ :=
  if success then currentRate * (9/10) + 1/10 else currentRate * (9/10)

/-- `findIndex` followed by the in-place write of lines 591–598: update the
first proxy matching `q`; also yield the rate written, if a match was found. -/
def updateFirst (pool : List Proxy) (q : Proxy) (success : Bool) :
    List Proxy × Option ℚ :=
  match pool with
  | [] => ([], none)
  | p :: rest =>
    if sameEndpoint p q then
      let newRate := emaUpdate (jsOrDefault p.successRate (1/2)) success
      ({ p with successRate := some newRate } :: rest, some newRate)
    else
      let step := updateFirst rest q success
      (p :: step.1, step.2)

/-- `updateProxyStats` (lines 586–606): update the first matching proxy and
auto-remove it when the new rate drops below 0.2. -/
def updateProxyStats (pool : List Proxy) (q : Proxy) (success : Bool) :
    List Proxy :=
  match updateFirst pool q success with
  | (pool', some newRate) => if newRate < 1/5 then removeProxy pool' q else pool'
  | (_, none) => pool

end ProxyManager

section ProxyManagerFacts

open ProxyManager

theorem updateFirst_append (q : Proxy) (success : Bool) :
    ∀ (pre : List Proxy), (∀ r ∈ pre, sameEndpoint r q = false) →
    ∀ (p : Proxy) (post : List Proxy), sameEndpoint p q = true →
    updateFirst (pre ++ p :: post) q success
      = (pre ++ { p with
            successRate := some (emaUpdate (jsOrDefault p.successRate (1/2)) success) } :: post,
         some (emaUpdate (jsOrDefault p.successRate (1/2)) success)) := by
  intro pre
  induction pre with
  | nil =>
      intro _ p post hp
      simp [updateFirst, hp]
  | cons r rest ih =>
      intro hpre p post hp
      have hr : sameEndpoint r q = false := hpre r (List.mem_cons_self _ _)
      have hrest := ih (fun u hu => hpre u (List.mem_cons_of_mem _ hu)) p post hp
      simp [updateFirst, hr, hrest]

/-- C4 counterexample: a proxy explicitly stored with score 0 is a pool member
for which the claimed update rule fails.  On `updateProxyStats(p, false)` the
expression `successRate || 0.5` in the code treats the stored 0 as unset, yielding
0.5·0.9 = 0.45 — not the claimed 0.9·0 = 0 — so the failure update strictly
increases the score instead of decreasing it, and no auto-removal happens. -/
theorem updateProxyStats_zero_score_counterexample :
    updateProxyStats [{ host := "h", port := 8080, successRate := some 0 }]
        { host := "h", port := 8080, successRate := some 0 } false
      = [{ host := "h", port := 8080, successRate := some (9/20) }] ∧
    (9/20 : ℚ) ≠ (9/10) * 0 ∧ ¬ ((9/20 : ℚ) < 0) := by
  refine ⟨?_, by norm_num, by norm_num⟩
  have h1 : sameEndpoint { host := "h", port := 8080, successRate := some (0 : ℚ) }
      { host := "h", port := 8080, successRate := some 0 } = true := by
    simp [sameEndpoint]
  have hval : emaUpdate (jsOrDefault (some (0 : ℚ)) (1/2)) false = 9/20 := by
    simp [jsOrDefault, emaUpdate]
    norm_num
  have h2 : ¬ (emaUpdate (jsOrDefault (some (0 : ℚ)) (1/2)) false < 1/5) := by
    rw [hval]
    norm_num
  simp only [updateProxyStats, updateFirst, h1, if_true, hval, h2, if_false]
  rw [if_neg (by norm_num : ¬ ((9/20 : ℚ) < 1/5))]

/-- C4 (amended): for a pool proxy whose stored score `s` satisfies
`0 < s ≤ 1` (a stored score of exactly 0 is treated as unset by the
`successRate || 0.5` default), `updateProxyStats` writes
`0.9·s + 0.1` on success and `0.9·s` on failure to the first matching
proxy; a success update strictly increases the score unless it is already 1,
a failure update strictly decreases it, the new score stays in (0, 1], and
exactly when the new score falls below 0.2 every proxy with that endpoint is
removed from the pool. -/
theorem updateProxyStats_ema (q p : Proxy) (pre post : List Proxy) (s : ℚ)
    (success : Bool)
    (hpre : ∀ r ∈ pre, sameEndpoint r q = false)
    (hp : sameEndpoint p q = true)
    (hrate : p.successRate = some s) (hs : 0 < s) (hs1 : s ≤ 1) :
    emaUpdate s success = (if success then s * (9/10) + 1/10 else s * (9/10)) ∧
    (success = true → (s < 1 → s < emaUpdate s success) ∧ emaUpdate s success ≤ 1) ∧
    (success = false → emaUpdate s success < s) ∧
    0 < emaUpdate s success ∧ emaUpdate s success ≤ 1 ∧
    (emaUpdate s success < 1/5 →
      updateProxyStats (pre ++ p :: post) q success
        = pre ++ post.filter (fun r => !(sameEndpoint r q))) ∧
    (¬ emaUpdate s success < 1/5 →
      updateProxyStats (pre ++ p :: post) q success
        = pre ++ { p with successRate := some (emaUpdate s success) } :: post) := by
  have htrue : emaUpdate s true = s * (9/10) + 1/10 := by simp [emaUpdate]
  have hfalse : emaUpdate s false = s * (9/10) := by simp [emaUpdate]
  have hjs : jsOrDefault p.successRate (1/2) = s := by
    rw [hrate]
    simp [jsOrDefault, ne_of_gt hs]
  have hfirst := updateFirst_append q success pre hpre p post hp
  rw [hjs] at hfirst
  have hsame : sameEndpoint { p with successRate := some (emaUpdate s success) } q
      = sameEndpoint p q := rfl
  have hkeep : pre.filter (fun r => !(sameEndpoint r q)) = pre := by
    apply List.filter_eq_self.mpr
    intro r hr
    simp [hpre r hr]
  have hstep : updateProxyStats (pre ++ p :: post) q success
      = (if emaUpdate s success < 1/5 then
          removeProxy
            (pre ++ { p with successRate := some (emaUpdate s success) } :: post) q
         else pre ++ { p with successRate := some (emaUpdate s success) } :: post) := by
    unfold updateProxyStats
    rw [hfirst]
  refine ⟨rfl, ?_, ?_, ?_, ?_, ?_, ?_⟩
  · intro hsucc
    subst hsucc
    rw [htrue]
    exact ⟨fun hlt => by linarith, by linarith⟩
  · intro hsucc
    subst hsucc
    rw [hfalse]
    linarith
  · cases success
    · rw [hfalse]; linarith
    · rw [htrue]; linarith
  · cases success
    · rw [hfalse]; linarith
    · rw [htrue]; linarith
  · intro hlow
    rw [hstep, if_pos hlow]
    simp only [removeProxy, List.filter_append, List.filter_cons, hsame, hp]
    simp [hkeep, removeProxy]
  · intro hhigh
    rw [hstep, if_neg hhigh]

/-- Witness for the amended C4: a fresh proxy with score 0.5 under a failure
update drops to 0.45 and stays in the pool. -/
theorem updateProxyStats_ema_witness :
    ((∀ r ∈ ([] : List Proxy),
        sameEndpoint r { host := "h", port := 1, successRate := some (1/2) } = false) ∧
      sameEndpoint { host := "h", port := 1, successRate := some (1/2) }
        { host := "h", port := 1, successRate := some (1/2) } = true ∧
      ({ host := "h", port := 1, successRate := some (1/2) } : Proxy).successRate
        = some (1/2) ∧ (0 : ℚ) < 1/2 ∧ (1/2 : ℚ) ≤ 1) ∧
    emaUpdate (1/2) false < 1/2 :=
  ⟨⟨by simp, by decide, rfl, by norm_num, by norm_num⟩,
   (updateProxyStats_ema { host := "h", port := 1, successRate := some (1/2) }
      { host := "h", port := 1, successRate := some (1/2) } [] [] (1/2) false
      (by simp) (by decide) rfl (by norm_num) (by norm_num)).2.2.1 rfl⟩

end ProxyManagerFacts

namespace Fingerprint

/-- `viewportSizes` entry shape (config/default.ts lines 71–78). -/
structure Viewport where
  width : ℕ
  height : ℕ
  deriving Repr, DecidableEq

/-- One `webglRenderers` entry (fingerprint.ts line 14). -/
structure WebGLRenderer where
  vendor : String
  renderer : String
  deriving Repr, DecidableEq

/-- `PlatformProfile` (fingerprint.ts lines 8–18). -/
structure PlatformProfile where
  platform : String
  userAgents : List String
  vendor : String
  fonts : List String
  plugins : List String
  webglRenderers : List WebGLRenderer
  hcMin : ℕ
  hcMax : ℕ
  deviceMemory : List ℕ
  screenResolutions : List Viewport
  deriving Repr, DecidableEq

/-- The Windows platform profile (fingerprint.ts lines 25–65). -/
def windowsProfile : PlatformProfile :=
  { platform := "Win32"
    userAgents :=
      ["Mozilla/5.0 (Windows NT 10.0; Win64; x64) AppleWebKit/537.36 (KHTML, like Gecko) Chrome/120.0.0.0 Safari/537.36",
       "Mozilla/5.0 (Windows NT 10.0; Win64; x64) AppleWebKit/537.36 (KHTML, like Gecko) Chrome/119.0.0.0 Safari/537.36",
       "Mozilla/5.0 (Windows NT 10.0; Win64; x64) AppleWebKit/537.36 (KHTML, like Gecko) Chrome/121.0.0.0 Safari/537.36",
       "Mozilla/5.0 (Windows NT 11.0; Win64; x64) AppleWebKit/537.36 (KHTML, like Gecko) Chrome/120.0.0.0 Safari/537.36"]
    vendor := "Google Inc."
    fonts :=
      ["Arial", "Arial Black", "Calibri", "Cambria", "Cambria Math", "Comic Sans MS",
       "Consolas", "Courier", "Courier New", "Georgia", "Helvetica", "Impact",
       "Lucida Console", "Lucida Sans Unicode", "Microsoft Sans Serif", "Palatino Linotype",
       "Segoe UI", "Tahoma", "Times New Roman", "Trebuchet MS", "Verdana"]
    plugins :=
      ["PDF Viewer", "Chrome PDF Viewer", "Chromium PDF Viewer",
       "Microsoft Edge PDF Viewer", "WebKit built-in PDF"]
    webglRenderers :=
      [{ vendor := "Google Inc. (NVIDIA)",
         renderer := "ANGLE (NVIDIA, NVIDIA GeForce RTX 3060 Direct3D11 vs_5_0 ps_5_0, D3D11)" },
       { vendor := "Google Inc. (NVIDIA)",
         renderer := "ANGLE (NVIDIA, NVIDIA GeForce GTX 1660 Ti Direct3D11 vs_5_0 ps_5_0, D3D11)" },
       { vendor := "Google Inc. (NVIDIA)",
         renderer := "ANGLE (NVIDIA, NVIDIA GeForce RTX 2060 Direct3D11 vs_5_0 ps_5_0, D3D11)" },
       { vendor := "Google Inc. (Intel)",
         renderer := "ANGLE (Intel, Intel(R) UHD Graphics 630 Direct3D11 vs_5_0 ps_5_0, D3D11)" },
       { vendor := "Google Inc. (Intel)",
         renderer := "ANGLE (Intel, Intel(R) Iris(R) Xe Graphics Direct3D11 vs_5_0 ps_5_0, D3D11)" },
       { vendor := "Google Inc. (AMD)",
         renderer := "ANGLE (AMD, AMD Radeon RX 6600 Direct3D11 vs_5_0 ps_5_0, D3D11)" },
       { vendor := "Google Inc. (AMD)",
         renderer := "ANGLE (AMD, AMD Radeon RX 5700 XT Direct3D11 vs_5_0 ps_5_0, D3D11)" }]
    hcMin := 4
    hcMax := 16
    deviceMemory := [4, 8, 16, 32]
    screenResolutions :=
      [{ width := 1920, height := 1080 }, { width := 1366, height := 768 },
       { width := 1536, height := 864 }, { width := 1440, height := 900 },
       { width := 2560, height := 1440 }] }

/-- The macOS platform profile (fingerprint.ts lines 67–113). -/
def macProfile : PlatformProfile :=
  { platform := "MacIntel"
    userAgents :=
      ["Mozilla/5.0 (Macintosh; Intel Mac OS X 10_15_7) AppleWebKit/537.36 (KHTML, like Gecko) Chrome/120.0.0.0 Safari/537.36",
       "Mozilla/5.0 (Macintosh; Intel Mac OS X 10_15_7) AppleWebKit/537.36 (KHTML, like Gecko) Chrome/119.0.0.0 Safari/537.36",
       "Mozilla/5.0 (Macintosh; Intel Mac OS X 13_5_1) AppleWebKit/537.36 (KHTML, like Gecko) Chrome/120.0.0.0 Safari/537.36",
       "Mozilla/5.0 (Macintosh; Intel Mac OS X 14_0) AppleWebKit/537.36 (KHTML, like Gecko) Chrome/121.0.0.0 Safari/537.36"]
    vendor := "Google Inc."
    fonts :=
      ["American Typewriter", "Andale Mono", "Arial", "Arial Black", "Arial Narrow",
       "Arial Rounded MT Bold", "Arial Unicode MS", "Avenir", "Avenir Next", "Baskerville",
       "Big Caslon", "Bodoni 72", "Bradley Hand", "Brush Script MT", "Chalkboard",
       "Chalkboard SE", "Comic Sans MS", "Copperplate", "Courier", "Courier New", "Didot",
       "Futura", "Geneva", "Georgia", "Gill Sans", "Helvetica", "Helvetica Neue",
       "Herculanum", "Impact", "Lucida Grande", "Luminari", "Marker Felt", "Monaco",
       "Optima", "Palatino", "Papyrus", "Phosphate", "Rockwell", "SF Pro Display",
       "SF Pro Text", "SignPainter", "Skia", "Snell Roundhand", "Tahoma", "Times",
       "Times New Roman", "Trattatello", "Trebuchet MS", "Verdana", "Zapfino"]
    plugins :=
      ["PDF Viewer", "Chrome PDF Viewer", "Chromium PDF Viewer",
       "Microsoft Edge PDF Viewer", "WebKit built-in PDF"]
    webglRenderers :=
      [{ vendor := "Intel Inc.", renderer := "Intel(R) Iris(TM) Plus Graphics 640" },
       { vendor := "Intel Inc.", renderer := "Intel(R) Iris(TM) Plus Graphics 655" },
       { vendor := "Intel Inc.", renderer := "Intel(R) UHD Graphics 630" },
       { vendor := "Apple Inc.", renderer := "Apple M1" },
       { vendor := "Apple Inc.", renderer := "Apple M2" },
       { vendor := "Apple Inc.", renderer := "Apple M1 Pro" },
       { vendor := "AMD", renderer := "AMD Radeon Pro 5500M" },
       { vendor := "AMD", renderer := "AMD Radeon Pro 5300M" }]
    hcMin := 4
    hcMax := 12
    deviceMemory := [8, 16, 32]
    screenResolutions :=
      [{ width := 1440, height := 900 }, { width := 1680, height := 1050 },
       { width := 1920, height := 1080 }, { width := 2560, height := 1440 },
       { width := 2560, height := 1600 }, { width := 2880, height := 1800 }] }

/-- The Linux platform profile (fingerprint.ts lines 115–154). -/
def linuxProfile : PlatformProfile :=
  { platform := "Linux x86_64"
    userAgents :=
      ["Mozilla/5.0 (X11; Linux x86_64) AppleWebKit/537.36 (KHTML, like Gecko) Chrome/120.0.0.0 Safari/537.36",
       "Mozilla/5.0 (X11; Linux x86_64) AppleWebKit/537.36 (KHTML, like Gecko) Chrome/119.0.0.0 Safari/537.36",
       "Mozilla/5.0 (X11; Linux x86_64) AppleWebKit/537.36 (KHTML, like Gecko) Chrome/121.0.0.0 Safari/537.36",
       "Mozilla/5.0 (X11; Ubuntu; Linux x86_64) AppleWebKit/537.36 (KHTML, like Gecko) Chrome/120.0.0.0 Safari/537.36"]
    vendor := "Google Inc."
    fonts :=
      ["Arial", "Arial Black", "Comic Sans MS", "Courier New", "DejaVu Sans",
       "DejaVu Sans Mono", "DejaVu Serif", "Droid Sans", "Droid Serif", "FreeMono",
       "FreeSans", "FreeSerif", "Georgia", "Liberation Mono", "Liberation Sans",
       "Liberation Serif", "Noto Sans", "Noto Serif", "Times New Roman", "Ubuntu",
       "Ubuntu Mono", "Verdana"]
    plugins :=
      ["PDF Viewer", "Chrome PDF Viewer", "Chromium PDF Viewer",
       "Microsoft Edge PDF Viewer", "WebKit built-in PDF"]
    webglRenderers :=
      [{ vendor := "Intel", renderer := "Mesa Intel(R) UHD Graphics 630 (CML GT2)" },
       { vendor := "Intel", renderer := "Mesa Intel(R) HD Graphics 620 (KBL GT2)" },
       { vendor := "NVIDIA Corporation", renderer := "NVIDIA GeForce GTX 1660 Ti/PCIe/SSE2" },
       { vendor := "NVIDIA Corporation", renderer := "NVIDIA GeForce RTX 3060/PCIe/SSE2" },
       { vendor := "AMD",
         renderer := "AMD Radeon RX 6600 (NAVI23, DRM 3.49.0, 6.2.0-26-generic, LLVM 15.0.7)" },
       { vendor := "AMD",
         renderer := "AMD Radeon RX 5700 XT (NAVI10, DRM 3.49.0, 6.2.0-26-generic, LLVM 15.0.7)" }]
    hcMin := 4
    hcMax := 32
    deviceMemory := [4, 8, 16, 32, 64]
    screenResolutions :=
      [{ width := 1920, height := 1080 }, { width := 1366, height := 768 },
       { width := 2560, height := 1440 }, { width := 1440, height := 900 },
       { width := 3840, height := 2160 }] }

/-- `platformProfiles` (fingerprint.ts line 23). -/
def platformProfiles : List PlatformProfile :=
  [windowsProfile, macProfile, linuxProfile]

/-- `timezones` (config/default.ts lines 80–90). -/
def timezones : List String :=
  ["America/New_York", "America/Chicago", "America/Los_Angeles", "America/Denver",
   "Europe/London", "Europe/Paris", "Asia/Tokyo", "Asia/Shanghai", "Australia/Sydney"]

/-- `locales` (config/default.ts lines 92–102). -/
def locales : List String :=
  ["en-US", "en-GB", "en-CA", "en-AU", "de-DE", "fr-FR", "es-ES", "ja-JP", "zh-CN"]

end Fingerprint

namespace Fingerprint

/-- The flags of `FingerprintConfig` that `generate` reads
(fingerprint.ts lines 167–227). -/
structure FingerprintConfig where
  spoofPlatform : Bool
  randomizeUserAgent : Bool
  randomizeViewport : Bool
  randomizeLocale : Bool
  randomizeTimezone : Bool
  spoofHardwareConcurrency : Bool
  spoofDeviceMemory : Bool
  randomizeFonts : Bool
  spoofPlugins : Bool
  deriving Repr, DecidableEq

/-- One draw of all the `Math.random()` consumption of a single `generate`
call, made explicit: array picks become indices (reduced modulo the array
length), the font filter becomes a keep/drop mask, and the random comparator of the plugin
shuffle becomes an arbitrary Boolean comparator plus a removal
count drawn from `{0, 1, 2}`. -/
structure GenChoices where
  platformIdx : ℕ
  uaIdx : ℕ
  vpIdx : ℕ
  localeIdx : ℕ
  tzIdx : ℕ
  hcIdx : ℕ
  memIdx : ℕ
  webglIdx : ℕ
  fontMask : List Bool
  pluginCmp : String → String → Bool
  pluginRemove : ℕ
  canvasSeed : String
  webglSeed : String
  audioSeed : String

/-- `randomElement` (fingerprint.ts lines 679–681):
`array[Math.floor(Math.random() * array.length)]`, with the random draw
expressed as an index reduced modulo the length. -/
def randomElement {α : Type} (l : List α) (i : ℕ) (dflt : α) : α :=
  l.getD (i % l.length) dflt

/-- `randomInt` (fingerprint.ts lines 686–688):
`Math.floor(Math.random() * (max - min + 1)) + min`. -/
def randomInt (lo hi i : ℕ) : ℕ :=
  lo + i % (hi - lo + 1)

/-- `generateFontList` (fingerprint.ts lines 652–660): each font is
independently kept or dropped by the random predicate; the draw is the
keep/drop mask. -/
def generateFontList (platformFonts : List String) (mask : List Bool) :
    List String :=
  (platformFonts.zip mask).filterMap (fun fb => if fb.2 then some fb.1 else none)

/-- `generatePluginList` (fingerprint.ts lines 665–673): shuffle with a
random comparator (`sort(() => Math.random() - 0.5)`, modelled as sorting by
an arbitrary Boolean comparator) and drop the last `removeCount ∈ {0,1,2}`. -/
def generatePluginList (platformPlugins : List String)
    (cmp : String → String → Bool) (removeCount : ℕ) : List String :=
  (platformPlugins.mergeSort cmp).take (platformPlugins.length - removeCount % 3)

/-- `GeneratedFingerprint` as returned by `generate`
(fingerprint.ts lines 211–226). -/
structure GeneratedFingerprint where
  userAgent : String
  viewport : Viewport
  platform : String
  vendor : String
  language : String
  timezone : String
  canvasFingerprint : String
  webglFingerprint : String
  audioFingerprint : String
  fonts : List String
  hardwareConcurrency : ℕ
  deviceMemory : ℕ
  plugins : List String
  webglRenderer : WebGLRenderer

/-- The platform profile `generate` selects first (lines 169–171):
a random profile when `spoofPlatform`, else `platformProfiles[0]`. -/
def selectedProfile (cfg : FingerprintConfig) (c : GenChoices) : PlatformProfile :=
  if cfg.spoofPlatform then randomElement platformProfiles c.platformIdx windowsProfile
  else platformProfiles.getD 0 windowsProfile

/-- `FingerprintGenerator.generate` (fingerprint.ts lines 167–227). -/
def generate (cfg : FingerprintConfig) (c : GenChoices) : GeneratedFingerprint :=
  let platformProfile := selectedProfile cfg c
  { userAgent :=
      if cfg.randomizeUserAgent then randomElement platformProfile.userAgents c.uaIdx ""
      else platformProfile.userAgents.getD 0 ""
    viewport :=
      if cfg.randomizeViewport then
        randomElement platformProfile.screenResolutions c.vpIdx { width := 0, height := 0 }
      else platformProfile.screenResolutions.getD 0 { width := 0, height := 0 }
    platform := platformProfile.platform
    vendor := platformProfile.vendor
    language :=
      if cfg.randomizeLocale then randomElement locales c.localeIdx ""
      else locales.getD 0 ""
    timezone :=
      if cfg.randomizeTimezone then randomElement timezones c.tzIdx ""
      else timezones.getD 0 ""
    canvasFingerprint := c.canvasSeed
    webglFingerprint := c.webglSeed
    audioFingerprint := c.audioSeed
    fonts :=
      if cfg.randomizeFonts then generateFontList platformProfile.fonts c.fontMask
      else platformProfile.fonts
    hardwareConcurrency :=
      if cfg.spoofHardwareConcurrency then
        randomInt platformProfile.hcMin platformProfile.hcMax c.hcIdx
      else platformProfile.hcMin
    deviceMemory :=
      if cfg.spoofDeviceMemory then randomElement platformProfile.deviceMemory c.memIdx 0
      else platformProfile.deviceMemory.getD 0 0
    plugins :=
      if cfg.spoofPlugins then
        generatePluginList platformProfile.plugins c.pluginCmp c.pluginRemove
      else platformProfile.plugins
    webglRenderer :=
      randomElement platformProfile.webglRenderers c.webglIdx
        { vendor := "", renderer := "" } }

/-- The TLS profile every session is created with: the `SessionManager`
constructor builds `new TLSAndHTTP2Manager` with the literal key
`chrome-120-windows` (session-manager.ts line 20), independent of the
generated identity. -/
def sessionTlsProfileKey : String := "chrome-120-windows"

/-- The keys of `TLS_HTTP2_PROFILES` (src/unnamed/part_005 lines 35–234). -/
def tlsProfileKeys : List String :=
  ["chrome-120-windows", "chrome-120-macos", "chrome-119-windows"]

end Fingerprint

namespace GeoTimezone

open RateLimiter (charsStartWith jsStartsWith)

/-- Character-list search underlying `jsIncludes`: does some suffix of `s`
start with `p`? -/
def charsContains : List Char → List Char → Bool
  | s, p =>
    match s with
    | [] => charsStartWith [] p
    | _ :: rest => charsStartWith s p || charsContains rest p

/-- JS `String.prototype.includes`, modelled on the character sequence. -/
def jsIncludes (s pat : String) : Bool :=
  charsContains s.data pat.data

/-- Character-list splitter underlying `jsSplit`. -/
def splitChars (sep : Char) : List Char → List (List Char)
  | [] => [[]]
  | c :: rest =>
    let r := splitChars sep rest
    if c == sep then [] :: r
    else
      match r with
      | [] => [[c]]
      | h :: t => (c :: h) :: t

/-- JS `String.prototype.split` with a one-character separator. -/
def jsSplit (s : String) (sep : Char) : List String :=
  (splitChars sep s.data).map String.mk

/-- `COUNTRY_TO_TIMEZONES` (src/unnamed/part_003 lines 9–104): ISO country
code to IANA timezone list, in source order. -/
def COUNTRY_TO_TIMEZONES : List (String × List String) :=
  [("US", ["America/New_York", "America/Chicago", "America/Denver", "America/Phoenix",
           "America/Los_Angeles", "America/Anchorage", "Pacific/Honolulu"]),
   ("CA", ["America/Toronto", "America/Winnipeg", "America/Edmonton", "America/Vancouver",
           "America/Halifax", "America/St_Johns"]),
   ("MX", ["America/Mexico_City", "America/Tijuana", "America/Monterrey"]),
   ("GB", ["Europe/London"]), ("FR", ["Europe/Paris"]), ("DE", ["Europe/Berlin"]),
   ("IT", ["Europe/Rome"]), ("ES", ["Europe/Madrid"]), ("NL", ["Europe/Amsterdam"]),
   ("BE", ["Europe/Brussels"]), ("CH", ["Europe/Zurich"]), ("AT", ["Europe/Vienna"]),
   ("SE", ["Europe/Stockholm"]), ("NO", ["Europe/Oslo"]), ("DK", ["Europe/Copenhagen"]),
   ("FI", ["Europe/Helsinki"]), ("PL", ["Europe/Warsaw"]), ("CZ", ["Europe/Prague"]),
   ("PT", ["Europe/Lisbon"]), ("IE", ["Europe/Dublin"]), ("GR", ["Europe/Athens"]),
   ("CN", ["Asia/Shanghai", "Asia/Urumqi"]), ("JP", ["Asia/Tokyo"]), ("KR", ["Asia/Seoul"]),
   ("IN", ["Asia/Kolkata"]), ("SG", ["Asia/Singapore"]), ("HK", ["Asia/Hong_Kong"]),
   ("TW", ["Asia/Taipei"]), ("TH", ["Asia/Bangkok"]), ("MY", ["Asia/Kuala_Lumpur"]),
   ("PH", ["Asia/Manila"]), ("ID", ["Asia/Jakarta", "Asia/Makassar", "Asia/Jayapura"]),
   ("VN", ["Asia/Ho_Chi_Minh"]),
   ("AU", ["Australia/Sydney", "Australia/Melbourne", "Australia/Brisbane",
           "Australia/Perth", "Australia/Adelaide"]),
   ("NZ", ["Pacific/Auckland"]),
   ("BR", ["America/Sao_Paulo", "America/Manaus", "America/Recife"]),
   ("AR", ["America/Argentina/Buenos_Aires"]), ("CL", ["America/Santiago"]),
   ("CO", ["America/Bogota"]), ("PE", ["America/Lima"]), ("VE", ["America/Caracas"]),
   ("AE", ["Asia/Dubai"]), ("SA", ["Asia/Riyadh"]), ("IL", ["Asia/Jerusalem"]),
   ("TR", ["Europe/Istanbul"]), ("EG", ["Africa/Cairo"]), ("ZA", ["Africa/Johannesburg"]),
   ("KE", ["Africa/Nairobi"]), ("NG", ["Africa/Lagos"]),
   ("RU", ["Europe/Moscow", "Asia/Yekaterinburg", "Asia/Novosibirsk", "Asia/Vladivostok"]),
   ("UA", ["Europe/Kiev"]), ("RO", ["Europe/Bucharest"]), ("BG", ["Europe/Sofia"])]

/-- `LOCALE_TO_COMMON_TIMEZONE` (src/unnamed/part_003 lines 194–213): the
locale → common-timezone table, in source order. -/
def LOCALE_TO_COMMON_TIMEZONE : List (String × String) :=
  [("en-US", "America/New_York"), ("en-GB", "Europe/London"), ("en-CA", "America/Toronto"),
   ("en-AU", "Australia/Sydney"), ("de-DE", "Europe/Berlin"), ("fr-FR", "Europe/Paris"),
   ("es-ES", "Europe/Madrid"), ("it-IT", "Europe/Rome"), ("ja-JP", "Asia/Tokyo"),
   ("zh-CN", "Asia/Shanghai"), ("ko-KR", "Asia/Seoul"), ("pt-BR", "America/Sao_Paulo"),
   ("ru-RU", "Europe/Moscow"), ("ar-SA", "Asia/Riyadh"), ("tr-TR", "Europe/Istanbul"),
   ("nl-NL", "Europe/Amsterdam"), ("pl-PL", "Europe/Warsaw"), ("sv-SE", "Europe/Stockholm")]

/-- `GeoTimezoneCorrelator.getTimezoneForCountry` (part_003 lines 222–231):
`null` for an unknown or empty country, else a random member of its timezone
list; the random draw is the explicit index `draw`. -/
def getTimezoneForCountry (countryCode : String) (draw : ℕ) : Option String :=
  match COUNTRY_TO_TIMEZONES.find? (fun e => e.1 == countryCode.toUpper) with
  | none => none
  | some e =>
    if e.2.isEmpty then none
    else some (Fingerprint.randomElement e.2 draw "")

/-- `GeoTimezoneCorrelator.getTimezoneForLocale` (part_003 lines 249–262):
table lookup; on a miss, split the locale at `-` and fall back to the
country lookup when that yields exactly two parts. -/
def getTimezoneForLocale (locale : String) (draw : ℕ) : Option String :=
  match LOCALE_TO_COMMON_TIMEZONE.find? (fun e => e.1 == locale) with
  | some e => some e.2
  | none =>
    let parts := jsSplit locale (Char.ofNat 45)
    if parts.length == 2 then getTimezoneForCountry (parts.getD 1 "") draw
    else none

/-- `GeoTimezoneCorrelator.getLocaleForTimezone` (part_003 lines 267–293):
reverse table lookup in entry order, then region-based fallbacks. -/
def getLocaleForTimezone (timezone : String) : String :=
  match LOCALE_TO_COMMON_TIMEZONE.find? (fun e => e.2 == timezone) with
  | some e => e.1
  | none =>
    if jsStartsWith timezone "America/" then "en-US"
    else if jsStartsWith timezone "Europe/" then
      if jsIncludes timezone "London" then "en-GB"
      else if jsIncludes timezone "Paris" then "fr-FR"
      else if jsIncludes timezone "Berlin" then "de-DE"
      else "en-GB"
    else if jsStartsWith timezone "Asia/" then
      if jsIncludes timezone "Tokyo" then "ja-JP"
      else if jsIncludes timezone "Shanghai" || jsIncludes timezone "Beijing" then "zh-CN"
      else if jsIncludes timezone "Seoul" then "ko-KR"
      else "en-US"
    else if jsStartsWith timezone "Australia/" then "en-AU"
    else "en-US"

/-- `GeoTimezoneCorrelator.validateConsistency` (part_003 lines 340–355): a
timezone/locale pair is consistent when the reverse lookup of the timezone
gives the locale or the table lookup of the locale gives the timezone (a
`null` expected timezone never matches). -/
def validateConsistency (timezone locale : String) (draw : ℕ) : Bool :=
  let expectedLocale := getLocaleForTimezone timezone
  let expectedTimezone := getTimezoneForLocale locale draw
  expectedLocale == locale ||
    (match expectedTimezone with
     | some tz => tz == timezone
     | none => false)

end GeoTimezone


section FingerprintFacts

open Fingerprint

theorem getD_mem_of_ne_nil {α : Type} (l : List α) (n : ℕ) (d : α)
    (hn : n < l.length) : l.getD n d ∈ l := by
  rw [List.getD_eq_getElem l d hn]
  exact List.getElem_mem hn

theorem randomElement_mem {α : Type} (l : List α) (i : ℕ) (d : α) (h : l ≠ []) :
    randomElement l i d ∈ l := by
  have hlen : 0 < l.length := List.length_pos.mpr h
  exact getD_mem_of_ne_nil l _ d (Nat.mod_lt _ hlen)

theorem pickOrHead_mem {α : Type} (b : Bool) (l : List α) (i : ℕ) (d : α)
    (h : l ≠ []) : (if b then randomElement l i d else l.getD 0 d) ∈ l := by
  cases b
  · simpa using getD_mem_of_ne_nil l 0 d (List.length_pos.mpr h)
  · simpa using randomElement_mem l i d h

theorem generateFontList_subset (fonts : List String) (mask : List Bool) :
    ∀ f ∈ generateFontList fonts mask, f ∈ fonts := by
  intro f hf
  simp only [generateFontList, List.mem_filterMap] at hf
  obtain ⟨⟨g, b⟩, hmem, hval⟩ := hf
  by_cases hb : b = true
  · subst hb
    simp only [if_true, Option.some.injEq] at hval
    exact hval ▸ (List.of_mem_zip hmem).1
  · simp [hb] at hval

theorem generatePluginList_subset (plugins : List String)
    (cmp : String → String → Bool) (removeCount : ℕ) :
    ∀ p ∈ generatePluginList plugins cmp removeCount, p ∈ plugins := by
  intro p hp
  have hsorted : p ∈ plugins.mergeSort cmp :=
    List.mem_of_mem_take hp
  exact (List.mergeSort_perm plugins cmp).mem_iff.mp hsorted

theorem randomInt_bounds (lo hi i : ℕ) (h : lo ≤ hi) :
    lo ≤ randomInt lo hi i ∧ randomInt lo hi i ≤ hi := by
  unfold randomInt
  have hmod : i % (hi - lo + 1) < hi - lo + 1 := Nat.mod_lt _ (by omega)
  omega

theorem profiles_wellFormed : ∀ pf ∈ platformProfiles,
    pf.userAgents ≠ [] ∧ pf.screenResolutions ≠ [] ∧ pf.webglRenderers ≠ [] ∧
    pf.deviceMemory ≠ [] ∧ pf.hcMin ≤ pf.hcMax := by
  intro pf hpf
  simp only [platformProfiles, List.mem_cons, List.not_mem_nil, or_false] at hpf
  rcases hpf with rfl | rfl | rfl <;>
    exact ⟨by decide, by decide, by decide, by decide, by decide⟩

theorem selectedProfile_mem (cfg : FingerprintConfig) (c : GenChoices) :
    selectedProfile cfg c ∈ platformProfiles := by
  unfold selectedProfile
  have hne : platformProfiles ≠ [] := by simp [platformProfiles]
  cases cfg.spoofPlatform
  · simpa using getD_mem_of_ne_nil platformProfiles 0 windowsProfile
      (List.length_pos.mpr hne)
  · simpa using randomElement_mem platformProfiles c.platformIdx windowsProfile hne

/-- An all-randomization-on configuration (the library default,
config/default.ts lines 4–20). -/
def cfgAllOn : Fingerprint.FingerprintConfig :=
  { spoofPlatform := true, randomizeUserAgent := true, randomizeViewport := true,
    randomizeLocale := true, randomizeTimezone := true,
    spoofHardwareConcurrency := true, spoofDeviceMemory := true,
    randomizeFonts := true, spoofPlugins := true }

/-- A concrete random draw that selects the macOS platform profile. -/
def macDraw : GenChoices :=
  { platformIdx := 1, uaIdx := 0, vpIdx := 0, localeIdx := 0, tzIdx := 0,
    hcIdx := 0, memIdx := 0, webglIdx := 0, fontMask := [],
    pluginCmp := fun _ _ => true, pluginRemove := 0,
    canvasSeed := "c", webglSeed := "w", audioSeed := "a" }

/-- C5 counterexample: an identity generated from the macOS platform record
is nevertheless paired with the TLS profile `chrome-120-windows` — the
`SessionManager` hard-codes that key for every session even though the TLS
table contains a macOS profile (`chrome-120-macos`).  The TLS profile id
therefore does not come from the platform record selected for the identity. -/
theorem tls_profile_not_from_platform_counterexample :
    (generate cfgAllOn macDraw).platform = "MacIntel" ∧
    sessionTlsProfileKey = "chrome-120-windows" ∧
    "chrome-120-macos" ∈ tlsProfileKeys ∧
    sessionTlsProfileKey ≠ "chrome-120-macos" := by
  refine ⟨rfl, rfl, by decide, by decide⟩

/-- C5 (amended): `userAgent`, `viewport` (screen resolution), `platform`,
`vendor`, `fonts`, `plugins`, WebGL vendor/renderer, `hardwareConcurrency`
and `deviceMemory` all come from the single platform record selected for the
identity; the TLS profile id, however, is the fixed constant
`chrome-120-windows` for every session, independent of that record. -/
theorem generate_platform_correlated (cfg : Fingerprint.FingerprintConfig)
    (c : GenChoices) :
    (generate cfg c).platform = (selectedProfile cfg c).platform ∧
    (generate cfg c).vendor = (selectedProfile cfg c).vendor ∧
    (generate cfg c).userAgent ∈ (selectedProfile cfg c).userAgents ∧
    (generate cfg c).viewport ∈ (selectedProfile cfg c).screenResolutions ∧
    (∀ f ∈ (generate cfg c).fonts, f ∈ (selectedProfile cfg c).fonts) ∧
    (∀ p ∈ (generate cfg c).plugins, p ∈ (selectedProfile cfg c).plugins) ∧
    (generate cfg c).webglRenderer ∈ (selectedProfile cfg c).webglRenderers ∧
    (selectedProfile cfg c).hcMin ≤ (generate cfg c).hardwareConcurrency ∧
    (generate cfg c).hardwareConcurrency ≤ (selectedProfile cfg c).hcMax ∧
    (generate cfg c).deviceMemory ∈ (selectedProfile cfg c).deviceMemory ∧
    sessionTlsProfileKey = "chrome-120-windows" := by
  obtain ⟨hua, hvp, hgl, hmem, hhc⟩ :=
    profiles_wellFormed (selectedProfile cfg c) (selectedProfile_mem cfg c)
  refine ⟨rfl, rfl, ?_, ?_, ?_, ?_, ?_, ?_, ?_, ?_, rfl⟩
  · exact pickOrHead_mem cfg.randomizeUserAgent _ c.uaIdx "" hua
  · exact pickOrHead_mem cfg.randomizeViewport _ c.vpIdx _ hvp
  · show ∀ f ∈ (if cfg.randomizeFonts then
        generateFontList (selectedProfile cfg c).fonts c.fontMask
      else (selectedProfile cfg c).fonts), f ∈ (selectedProfile cfg c).fonts
    cases cfg.randomizeFonts
    · simp
    · simpa using generateFontList_subset (selectedProfile cfg c).fonts c.fontMask
  · show ∀ p ∈ (if cfg.spoofPlugins then
        generatePluginList (selectedProfile cfg c).plugins c.pluginCmp c.pluginRemove
      else (selectedProfile cfg c).plugins), p ∈ (selectedProfile cfg c).plugins
    cases cfg.spoofPlugins
    · simp
    · simpa using
        generatePluginList_subset (selectedProfile cfg c).plugins c.pluginCmp c.pluginRemove
  · exact randomElement_mem _ c.webglIdx _ hgl
  · show (selectedProfile cfg c).hcMin ≤
      (if cfg.spoofHardwareConcurrency then
        randomInt (selectedProfile cfg c).hcMin (selectedProfile cfg c).hcMax c.hcIdx
      else (selectedProfile cfg c).hcMin)
    cases cfg.spoofHardwareConcurrency
    · simp
    · simpa using (randomInt_bounds _ _ c.hcIdx hhc).1
  · show (if cfg.spoofHardwareConcurrency then
        randomInt (selectedProfile cfg c).hcMin (selectedProfile cfg c).hcMax c.hcIdx
      else (selectedProfile cfg c).hcMin) ≤ (selectedProfile cfg c).hcMax
    cases cfg.spoofHardwareConcurrency
    · simpa using hhc
    · simpa using (randomInt_bounds _ _ c.hcIdx hhc).2
  · exact pickOrHead_mem cfg.spoofDeviceMemory _ c.memIdx 0 hmem

/-- A concrete random draw selecting locale `de-DE` and timezone
`Asia/Tokyo`. -/
def germanTokyoDraw : GenChoices :=
  { platformIdx := 0, uaIdx := 0, vpIdx := 0, localeIdx := 4, tzIdx := 6,
    hcIdx := 0, memIdx := 0, webglIdx := 0, fontMask := [],
    pluginCmp := fun _ _ => true, pluginRemove := 0,
    canvasSeed := "c", webglSeed := "w", audioSeed := "a" }

/-- C8 counterexample: `generate` draws the timezone uniformly from the
global `timezones` list with no regard to the locale, so an identity with
locale `de-DE` can receive timezone `Asia/Tokyo`.  By the locale-to-timezone
table the repository itself ships (`LOCALE_TO_COMMON_TIMEZONE`, part_003) the
plausible timezone for `de-DE` is `Europe/Berlin`, and the validation helper
`GeoTimezoneCorrelator.validateConsistency` rejects the generated pair. -/
theorem timezone_locale_mismatch_counterexample :
    (generate cfgAllOn germanTokyoDraw).language = "de-DE" ∧
    (generate cfgAllOn germanTokyoDraw).timezone = "Asia/Tokyo" ∧
    GeoTimezone.getTimezoneForLocale "de-DE" 0 = some "Europe/Berlin" ∧
    GeoTimezone.validateConsistency "Asia/Tokyo" "de-DE" 0 = false := by
  refine ⟨rfl, rfl, rfl, rfl⟩

/-- C8 (amended): the timezone of a generated identity is drawn from the
global `timezones` list (and the locale from the global `locales` list)
independently: changing only the locale draw never changes the timezone, and
changing only the timezone draw never changes the locale.  `generate` never
consults the locale-to-timezone table or the validation helper that
part_003 provides, so no locale-to-timezone plausibility is enforced; the
table lookup itself ignores the random draw for every locale it contains. -/
theorem generate_timezone_independent_of_locale
    (cfg : Fingerprint.FingerprintConfig) (c : GenChoices) (i : ℕ) :
    (generate cfg c).timezone ∈ Fingerprint.timezones ∧
    (generate cfg c).language ∈ Fingerprint.locales ∧
    (generate cfg { c with localeIdx := i }).timezone = (generate cfg c).timezone ∧
    (generate cfg { c with tzIdx := i }).language = (generate cfg c).language ∧
    GeoTimezone.getTimezoneForLocale "de-DE" i = some "Europe/Berlin" := by
  refine ⟨?_, ?_, rfl, rfl, rfl⟩
  · exact pickOrHead_mem cfg.randomizeTimezone _ c.tzIdx "" (by decide)
  · exact pickOrHead_mem cfg.randomizeLocale _ c.localeIdx "" (by decide)

end FingerprintFacts

namespace StealthScraper

/-- `hasBlocks` as computed inside `testSecurity` (stealth-scraper.ts lines
168–170): some detection has type `block` or `captcha`. -/
def hasBlocks (ds : List String) : Bool :=
  ds.any (fun d => d == "block" || d == "captcha")

/-- The `bypassSuccess` accumulation of the `testSecurity` loop (lines
140–187).  Each attempt outcome is `none` when the try block threw (the
catch at lines 183–186 leaves `bypassSuccess` unchanged) and `some ds` when
detection analysis ran and reported the kinds `ds`; a completed attempt with
no block/captcha sets `bypassSuccess` to true, and nothing resets it. -/
def testSecurityBypass (outcomes : List (Option (List String))) : Bool :=
  outcomes.foldl
    (fun acc o => match o with
      | some ds => acc || !(hasBlocks ds)
      | none => acc)
    false

/-- Events of the `testSecurity` control flow, used to state how many sessions
and pages it creates and in which order the attempts run. -/
inductive TSEvent
  | createSession
  | createPage (i : ℕ)
  | navigate (i : ℕ)
  | analyze (i : ℕ)
  | closePage (i : ℕ)
  | closeSession
  deriving Repr, DecidableEq

/-- The body of attempt `i` of `testSecurity` (lines 142–187): create a page
in the existing session, navigate, analyze, close the page. -/
def attemptBlock (i : ℕ) : List TSEvent :=
  [TSEvent.createPage i, TSEvent.navigate i, TSEvent.analyze i, TSEvent.closePage i]

/-- Control-flow trace of `testSecurity` (lines 130–201): one session is
created before the loop (line 136), the `attempts` iterations run in index
order, and the session is closed after the report (line 198). -/
def testSecurityTrace (attempts : ℕ) : List TSEvent :=
  [TSEvent.createSession] ++ (List.range attempts).flatMap attemptBlock
    ++ [TSEvent.closeSession]

/-- Recognizer for `createPage` events. -/
def isCreatePage : TSEvent → Bool
  | TSEvent.createPage _ => true
  | _ => false

/-- Recognizer for `navigate` events. -/
def isNavigate : TSEvent → Bool
  | TSEvent.navigate _ => true
  | _ => false

end StealthScraper

namespace Stress

/-- One request of a stress-test session (stealth-scraper.ts lines 232–257):
its navigation+analysis duration, the random inter-request delay (lines
250–252), whether the try block succeeded, and how many detections the
analysis reported. -/
structure Req where
  duration : ℚ
  delay : ℚ
  ok : Bool
  detections : ℕ
  deriving Repr, DecidableEq

/-- Wall-clock time the sequential loop of one session occupies: the catch path
skips the inter-request delay. -/
def sessionTime (rs : List Req) : ℚ :=
  (rs.map (fun r => r.duration + if r.ok then r.delay else 0)).sum

/-- `totalRequests`: incremented once per request on both the success path
(line 237) and the error path (line 254). -/
def totalReq (sessions : List (List Req)) : ℕ :=
  (sessions.map List.length).sum

/-- `totalDetections`: only requests whose try block succeeded contribute
their detection count (lines 241–245). -/
def totalDetections (sessions : List (List Req)) : ℚ :=
  (sessions.map
    (fun rs => ((rs.filter (fun r => r.ok)).map (fun r => (r.detections : ℚ))).sum)).sum

/-- The sessions run concurrently (`Promise.all`, line 265); the run ends
when the slowest session finishes. -/
def wallDuration (sessions : List (List Req)) : ℚ :=
  (sessions.map sessionTime).foldr max 0

/-- The record `stressTest` returns (lines 270–275). -/
structure StressResult where
  totalRequests : ℕ
  successfulRequests : ℕ
  detectionRate : ℚ
  averageResponseTime : ℚ
  deriving Repr, DecidableEq

/-- `stressTest` (stealth-scraper.ts lines 206–276) on a given schedule of
per-session request outcomes, starting at wall-clock instant `startTime`:
`startTime` is taken at line 219, `endTime` when all sessions settle
(line 267), and `averageResponseTime = (endTime - startTime) / totalRequests`
(line 268). -/
def stressTest (sessions : List (List Req)) (startTime : ℚ) : StressResult :=
  let endTime := startTime + wallDuration sessions
  { totalRequests := totalReq sessions
    successfulRequests :=
      (sessions.map (fun rs => rs.countP (fun r => r.ok && r.detections == 0))).sum
    detectionRate := totalDetections sessions / totalReq sessions
    averageResponseTime := (endTime - startTime) / totalReq sessions }

/-- The mean of the per-request navigation latencies, which the claim says
`averageResponseTime` is NOT. -/
def meanLatency (sessions : List (List Req)) : ℚ :=
  ((sessions.map (fun rs => (rs.map Req.duration).sum)).sum) / totalReq sessions

end Stress

section StealthScraperFacts

open StealthScraper

/-- C6: `testSecurity` reports `bypassSuccess = true` exactly when at least
one attempt ran its detection analysis and produced no detection of kind
`block` or `captcha` (attempts whose try block threw never set the flag). -/
theorem bypassSuccess_iff (outcomes : List (Option (List String))) :
    testSecurityBypass outcomes = true ↔
      ∃ ds, some ds ∈ outcomes ∧ ∀ d ∈ ds, d ≠ "block" ∧ d ≠ "captcha" := by
  have haux : ∀ (l : List (Option (List String))) (acc : Bool),
      l.foldl (fun acc o => match o with
        | some ds => acc || !(hasBlocks ds)
        | none => acc) acc
      = (acc || l.any (fun o => match o with
          | some ds => !(hasBlocks ds)
          | none => false)) := by
    intro l
    induction l with
    | nil => intro acc; simp
    | cons x xs ih =>
        intro acc
        cases x with
        | none => simp only [List.foldl_cons, List.any_cons, ih]; simp
        | some ds =>
            simp only [List.foldl_cons, List.any_cons, ih]
            cases acc <;> cases hasBlocks ds <;> simp
  rw [testSecurityBypass, haux, Bool.false_or, List.any_eq_true]
  constructor
  · rintro ⟨o, ho, hval⟩
    cases o with
    | none => simp at hval
    | some ds =>
        refine ⟨ds, ho, fun d hd => ?_⟩
        have hfalse : hasBlocks ds = false := by
          simpa using hval
        rw [hasBlocks, List.any_eq_false] at hfalse
        have := hfalse d hd
        simpa using this
  · rintro ⟨ds, hmem, hds⟩
    refine ⟨some ds, hmem, ?_⟩
    have hfalse : hasBlocks ds = false := by
      rw [hasBlocks, List.any_eq_false]
      intro d hd
      simpa using hds d hd
    simp [hfalse]

theorem flatMap_attemptBlock_count (l : List ℕ) :
    ((l.flatMap attemptBlock).count TSEvent.createSession) = 0 := by
  induction l with
  | nil => simp
  | cons x xs ih =>
      simp [List.flatMap_cons, List.count_append, attemptBlock, List.count_cons, ih]

theorem flatMap_attemptBlock_filter_navigate (l : List ℕ) :
    (l.flatMap attemptBlock).filter isNavigate = l.map TSEvent.navigate := by
  induction l with
  | nil => simp
  | cons x xs ih =>
      simp [List.flatMap_cons, List.filter_append, attemptBlock, isNavigate, ih]

theorem flatMap_attemptBlock_filter_createPage (l : List ℕ) :
    (l.flatMap attemptBlock).filter isCreatePage = l.map TSEvent.createPage := by
  induction l with
  | nil => simp
  | cons x xs ih =>
      simp [List.flatMap_cons, List.filter_append, attemptBlock, isCreatePage, ih]

/-- C7 counterexample: a two-attempt `testSecurity` run creates exactly one
session, not one per attempt — the session is created once before the loop
(line 136) and only a fresh page is created per attempt (line 143). -/
theorem testSecurity_single_session_counterexample :
    (testSecurityTrace 2).count TSEvent.createSession = 1 ∧
    (testSecurityTrace 2).count TSEvent.createSession ≠ 2 := by
  refine ⟨by decide, by decide⟩

/-- C7 (amended): `testSecurity` runs its `n` attempts sequentially in index
order, creating a single session for the whole run and a new page for each
attempt. -/
theorem testSecurity_one_session_sequential (n : ℕ) :
    (testSecurityTrace n).count TSEvent.createSession = 1 ∧
    (testSecurityTrace n).filter isCreatePage = (List.range n).map TSEvent.createPage ∧
    (testSecurityTrace n).filter isNavigate = (List.range n).map TSEvent.navigate := by
  refine ⟨?_, ?_, ?_⟩
  · simp [testSecurityTrace, List.count_append, flatMap_attemptBlock_count,
      List.count_cons, List.count_singleton]
  · simp [testSecurityTrace, List.filter_append,
      flatMap_attemptBlock_filter_createPage, isCreatePage]
  · simp [testSecurityTrace, List.filter_append,
      flatMap_attemptBlock_filter_navigate, isNavigate]

end StealthScraperFacts

section StressFacts

open Stress

/-- C9: `stressTest` reports `averageResponseTime` as the wall-clock
duration of the whole run — the finish time of the slowest concurrent
session, delays and overhead included — divided by `totalRequests`; on a
concrete schedule of two one-request sessions this differs from the mean of
the per-request latencies. -/
theorem stressTest_wallclock_average (sessions : List (List Req)) (startTime : ℚ) :
    (stressTest sessions startTime).averageResponseTime
        = wallDuration sessions / totalReq sessions ∧
    (stressTest [[{ duration := 10, delay := 5, ok := true, detections := 0 }],
                 [{ duration := 20, delay := 5, ok := true, detections := 0 }]]
        0).averageResponseTime = 25/2 ∧
    meanLatency [[{ duration := 10, delay := 5, ok := true, detections := 0 }],
                 [{ duration := 20, delay := 5, ok := true, detections := 0 }]] = 15 ∧
    (25/2 : ℚ) ≠ 15 := by
  refine ⟨?_, ?_, ?_, by norm_num⟩
  · simp [stressTest]
  · norm_num [stressTest, wallDuration, sessionTime, totalReq, max_def]
  · norm_num [meanLatency, totalReq]

end StressFacts
